import Mathlib

/-!
Verification of the apiserver dispatch layer (derfred/kubernetes).

The repository's visible material under `src/` is the apiserver test file
(`src/unnamed/part_000`, package `apiserver`) together with an unrelated
kubelet bootstrap file.  The dispatcher implementation itself
(route registration, request handlers, `parseTimeout`, CORS middleware) is
not part of `src/`; following the spec (`spec.md`) we model those missing
parts from the spec's words, keeping the test file as the authority for
every behaviour it pins down (status codes, self-link strings, the
skip-on-error escape hatch, ...).  Definitions taken from the test file
(`Simple`, `SimpleRESTStorage`, `setTestSelfLinker`-style linkers) are
translated directly from that source.
-/

/-- Status reasons of the error taxonomy (spec §7).  `unknown` doubles as the
empty reason of a success `api.Status` (in the source `StatusReasonUnknown`
is the empty string). -/
inductive StatusReason where
  | notFound
  | alreadyExists
  | conflict
  | invalid
  | badRequest
  | forbidden
  | timeout
  | unknown
deriving DecidableEq, Repr

/-- Modelled from the spec: the timeout-class HTTP code used for
`ServerTimeout` failures (spec §4.5, §7: "HTTP 504-class / domain-specific
timeout code"; the test file refers to it as `apierrs.StatusServerTimeout`). -/
def StatusServerTimeout : Nat := 504

/-- Modelled from the spec: HTTP projection of the error taxonomy (spec §7). -/
def StatusReason.httpCode : StatusReason → Nat
  | .notFound => 404
  | .alreadyExists => 409
  | .conflict => 409
  | .invalid => 400
  | .badRequest => 400
  | .forbidden => 403
  | .timeout => StatusServerTimeout
  | .unknown => 500

/-- A domain error carried by a backend or synthesized by the dispatcher
(`pkg/api/errors` at the interface boundary). -/
structure ApiError where
  reason : StatusReason
  message : String
deriving DecidableEq, Repr

/-- The `api.Status` envelope (spec §3): status success/failure, message,
reason and code. -/
structure StatusBody where
  isFailure : Bool
  message : String
  reason : StatusReason
  code : Nat
deriving DecidableEq, Repr

/-- Identity and payload of the `Simple` test object
(`src/unnamed/part_000` lines 173-179): `TypeMeta` is implied by the decode
model below, `ObjectMeta` carries name, namespace and self-link, `Other` is
the payload.  `nspace` stands for the Go field `Namespace` (a Lean keyword). -/
structure Simple where
  name : String
  nspace : String
  selfLink : String
  other : String
deriving DecidableEq, Repr

/-- The `SimpleList` test object (`src/unnamed/part_000` lines 181-185):
list metadata (self-link) plus items. -/
structure SimpleList where
  selfLink : String
  items : List Simple
deriving DecidableEq, Repr

/-- Response body: a single object, a list, or a `Status` envelope. -/
inductive Body where
  | obj (o : Simple)
  | list (l : SimpleList)
  | status (s : StatusBody)
deriving DecidableEq, Repr

/-- An HTTP response: status code plus encoded body. -/
structure Response where
  code : Nat
  body : Body
deriving DecidableEq, Repr

/-- Modelled from the spec: every error path yields a structured Status body
whose code matches the HTTP projection (spec §7). -/
def errorResponse (e : ApiError) : Response :=
  { code := e.reason.httpCode
    body := .status { isFailure := true, message := e.message, reason := e.reason
                      code := e.reason.httpCode } }

/-- Modelled from the spec: the failure Status returned when a mutating
operation exceeds its deadline (spec §4.5: reason `Timeout`,
timeout-class HTTP code). -/
def serverTimeoutResponse : Response :=
  errorResponse { reason := .timeout, message := "request did not complete within allowed duration" }

/-- The SelfLinker capability interface (`runtime.SelfLinker`, spec §2 and
§9): resolves an object's name and namespace, either of which may fail.
`SetSelfLink` calls are recorded by the dispatcher model as a list of links,
so a linker value only needs the two read capabilities. -/
structure SelfLinker where
  resolveName : Simple → Except Unit String
  resolveNamespace : Simple → Except Unit String

/-- The default accessor linker (`meta.NewAccessor()` in the test file):
reads the identity fields of the object itself. -/
def accessorLinker : SelfLinker :=
  { resolveName := fun o => .ok o.name
    resolveNamespace := fun o => .ok o.nspace }

/-- A linker in the shape of the test file's `setTestSelfLinker`
(`src/unnamed/part_000` lines 1164-1182): fixed name and namespace, and an
optional error returned by every resolution. -/
def setTestLinker (n ns : String) (failing : Bool) : SelfLinker :=
  { resolveName := fun _ => if failing then .error () else .ok n
    resolveNamespace := fun _ => if failing then .error () else .ok ns }

/-- The `SimpleRESTStorage` backend of the test file
(`src/unnamed/part_000` lines 204-324): per-verb injectable errors, stored
list and item, and observation fields `deleted`/`updated`/`created` together
with the context namespace recorded by `checkContext`. -/
structure SimpleRESTStorage where
  errors : String → Option ApiError
  list : List Simple
  item : Simple
  deleted : Option String
  updated : Option Simple
  created : Option Simple
  actualNamespace : Option String

/-- A fresh backend: no injected errors, nothing recorded. -/
def emptyStorage : SimpleRESTStorage :=
  { errors := fun _ => none, list := [], item := ⟨"", "", "", ""⟩
    deleted := none, updated := none, created := none, actualNamespace := none }

/-- `SimpleRESTStorage.List` (source lines 232-238): records the context
namespace, returns the stored items or the injected list error. -/
def SimpleRESTStorage.List (s : SimpleRESTStorage) (ctxNs : String) :
    SimpleRESTStorage × Except ApiError (List Simple) :=
  ({ s with actualNamespace := some ctxNs },
    match s.errors "list" with
    | some e => .error e
    | none => .ok s.list)

/-- `SimpleRESTStorage.Get` (source lines 240-243): records the context
namespace and returns a copy of the stored item, or the injected get error. -/
def SimpleRESTStorage.Get (s : SimpleRESTStorage) (ctxNs : String) :
    SimpleRESTStorage × Except ApiError Simple :=
  ({ s with actualNamespace := some ctxNs },
    match s.errors "get" with
    | some e => .error e
    | none => .ok s.item)

/-- `SimpleRESTStorage.Delete` (source lines 249-261): records the context
namespace, records the deleted id before consulting the injected error,
then answers a success `Status` or the error. -/
def SimpleRESTStorage.Delete (s : SimpleRESTStorage) (ctxNs id : String) :
    SimpleRESTStorage × Except ApiError Unit :=
  ({ s with actualNamespace := some ctxNs, deleted := some id },
    match s.errors "delete" with
    | some e => .error e
    | none => .ok ())

/-- `SimpleRESTStorage.Create` (source lines 271-282): records the context
namespace, records the created object before consulting the injected error,
then returns the object or the error. -/
def SimpleRESTStorage.Create (s : SimpleRESTStorage) (ctxNs : String) (obj : Simple) :
    SimpleRESTStorage × Except ApiError Simple :=
  ({ s with actualNamespace := some ctxNs, created := some obj },
    match s.errors "create" with
    | some e => .error e
    | none => .ok obj)

/-- `SimpleRESTStorage.Update` (source lines 284-295): records the context
namespace, records the updated object before consulting the injected error,
then returns the object or the error. -/
def SimpleRESTStorage.Update (s : SimpleRESTStorage) (ctxNs : String) (obj : Simple) :
    SimpleRESTStorage × Except ApiError Simple :=
  ({ s with actualNamespace := some ctxNs, updated := some obj },
    match s.errors "update" with
    | some e => .error e
    | none => .ok obj)

/-- The three mutating operation kinds gated by admission (spec §4.4). -/
inductive Operation where
  | create
  | update
  | delete
deriving DecidableEq, Repr

/-- The admission pipeline contract (spec §4.4): a single boolean decision
per mutating operation. -/
def Admission : Type := Operation → Bool

/-- The always-allow reference policy (`admit.NewAlwaysAdmit()`). -/
def alwaysAdmit : Admission := fun _ => true

/-- The always-deny reference policy (`deny.NewAlwaysDeny()`). -/
def alwaysDeny : Admission := fun _ => false

/-- Modelled from the spec: outcome of decoding a write-verb body through
the codec (spec §4.1, §4.3 DecodeBody).  A payload either decodes into the
kind's registered type (`Simple` here), decodes into a different registered
kind, or is malformed. -/
inductive DecodeResult where
  | ok (obj : Simple)
  | wrongKind (kind : String)
  | malformed
deriving Repr

/-- Modelled from the spec: the decode-mismatch error for a structurally
valid payload of the wrong registered kind — "fails with a 'must be of type
`<Kind>`' decode error surfaced as a Bad Request" (spec §4.3); the expected
kind of the registered routes modelled here is `Simple`. -/
def wrongKindError (k : String) : ApiError :=
  { reason := .badRequest
    message := "unable to decode " ++ k ++ " object: must be of type Simple" }

/-- Modelled from the spec: a malformed body is a Bad Request (spec §7
Invalid). -/
def malformedError : ApiError :=
  { reason := .badRequest, message := "the request body could not be decoded" }

/-- Modelled from the spec: admission denial synthesized as Forbidden
(spec §4.3 Admit, §7). -/
def forbiddenError : ApiError :=
  { reason := .forbidden, message := "the operation was forbidden by admission control" }

/-- Modelled from the spec: the bad-request error of the update
name/namespace consistency check (spec §4.3). -/
def mismatchError : ApiError :=
  { reason := .badRequest
    message := "the name or namespace of the object does not match the request" }

/-- Modelled from the spec: legacy-scope namespace resolution for item
requests — an absent `namespace` query parameter defaults to the configured
default namespace `"default"` (spec §3 Object Identity, §4.1). -/
def resolveItemNamespace : Option String → String
  | none => "default"
  | some v => v

/-- Modelled from the spec: legacy-scope namespace resolution for list
requests — an absent query parameter means "no namespace filter", the empty
string (spec §4.3 ResolveNamespace). -/
def resolveListNamespace : Option String → String
  | none => ""
  | some v => v

/-- Modelled from the spec: the collection path of a kind under the test
root and version (spec §6: `/<root>/<version>/<kind>`). -/
def collectionPath (kind : String) : String :=
  "/api/version/" ++ kind

/-- Modelled from the spec: the item path of a named object
(spec §6: `/<root>/<version>/<kind>/<name>`). -/
def itemPath (kind name : String) : String :=
  collectionPath kind ++ "/" ++ name

/-- Modelled from the spec: self-link injection for a single object under
legacy scope — the request path plus the `?namespace=` form of the object's
namespace as resolved by the linker (spec §4.3 InjectSelfLink).  When the
linker cannot resolve the namespace the computation is skipped and no
`SetSelfLink` call is made (the escape hatch pinned by
`TestUpdateAllowsMismatchedNamespaceOnError`, source lines 966-1006). -/
def setSelfLink (linker : SelfLinker) (path : String) (obj : Simple) :
    Option (Simple × String) :=
  match linker.resolveNamespace obj with
  | .error _ => none
  | .ok ns =>
    let link := path ++ "?namespace=" ++ ns
    some ({ obj with selfLink := link }, link)

/-- Modelled from the spec: self-link injection that appends the
linker-resolved name to a collection path (create results and list items,
spec §4.3 InjectSelfLink).  Skipped without a call when the linker cannot
resolve the identity, and skipped for the zero-value identity — "an object
with no name gets no self-link, even inside a populated list"
(`TestSelfLinkSkipsEmptyName`, source lines 582-627). -/
def setSelfLinkAddName (linker : SelfLinker) (cpath : String) (obj : Simple) :
    Option (Simple × String) :=
  match linker.resolveName obj, linker.resolveNamespace obj with
  | .ok n, .ok ns =>
    if n = "" then none
    else
      let link := cpath ++ "/" ++ n ++ "?namespace=" ++ ns
      some ({ obj with selfLink := link }, link)
  | _, _ => none

/-- Result of a dispatched request: the response, the backend state after
the request, and the `SetSelfLink` calls made (as the links passed). -/
structure HandlerResult where
  resp : Response
  storage : SimpleRESTStorage
  linkCalls : List String


/-- Modelled from the spec: the List handler (spec §4.3) — resolve the
legacy-scope namespace filter, invoke the backend synchronously, inject a
self-link on every item with a non-empty resolved name and on the collection
itself (the collection link reflecting the namespace filter), then encode.
A backend error is projected through the error taxonomy. -/
def handleList (linker : SelfLinker) (kind : String) (reqNs : Option String)
    (s : SimpleRESTStorage) : HandlerResult :=
  let ns := resolveListNamespace reqNs
  let p := s.List ns
  match p.2 with
  | .error e => ⟨errorResponse e, p.1, []⟩
  | .ok items =>
    let cpath := collectionPath kind
    let collLink := cpath ++ "?namespace=" ++ ns
    let injected := items.map (fun it =>
      match setSelfLinkAddName linker cpath it with
      | none => (it, ([] : List String))
      | some (it', link) => (it', [link]))
    ⟨{ code := 200, body := .list { selfLink := collLink, items := injected.map Prod.fst } },
      p.1, (injected.map Prod.snd).flatten ++ [collLink]⟩

/-- Modelled from the spec: the Get handler (spec §4.3) — resolve the item
namespace, invoke the backend synchronously, inject the single object's
self-link, encode; backend errors are projected, and a linker failure during
injection skips the `SetSelfLink` call. -/
def handleGet (linker : SelfLinker) (kind : String) (reqNs : Option String)
    (name : String) (s : SimpleRESTStorage) : HandlerResult :=
  let ns := resolveItemNamespace reqNs
  let p := s.Get ns
  match p.2 with
  | .error e => ⟨errorResponse e, p.1, []⟩
  | .ok obj =>
    match setSelfLink linker (itemPath kind name) obj with
    | none => ⟨{ code := 200, body := .obj obj }, p.1, []⟩
    | some (obj', link) => ⟨{ code := 200, body := .obj obj' }, p.1, [link]⟩

/-- Modelled from the spec: the Create handler (spec §4.3) — decode with
kind validation, gate through admission, submit the backend call to the
timeout executor (`deadlineFirst` selects the loser-keeps-running branch of
the race, spec §4.5), inject the self-link by appending the linker-resolved
name, respond 201 Created on success (the code pinned by `TestCreate`,
source lines 1184-1238). -/
def handleCreate (deadlineFirst : Bool) (adm : Admission) (linker : SelfLinker)
    (kind : String) (reqNs : Option String) (body : DecodeResult)
    (s : SimpleRESTStorage) : HandlerResult :=
  match body with
  | .malformed => ⟨errorResponse malformedError, s, []⟩
  | .wrongKind k => ⟨errorResponse (wrongKindError k), s, []⟩
  | .ok obj =>
    if adm Operation.create then
      let p := s.Create (resolveItemNamespace reqNs) obj
      if deadlineFirst then ⟨serverTimeoutResponse, p.1, []⟩
      else
        match p.2 with
        | .error e => ⟨errorResponse e, p.1, []⟩
        | .ok out =>
          match setSelfLinkAddName linker (collectionPath kind) out with
          | none => ⟨{ code := 201, body := .obj out }, p.1, []⟩
          | some (out', link) => ⟨{ code := 201, body := .obj out' }, p.1, [link]⟩
    else ⟨errorResponse forbiddenError, s, []⟩

/-- Modelled from the spec: the Update handler (spec §4.3) — decode with
kind validation, then the name/namespace consistency check: if the linker
resolves both identity fields, a name differing from the path's name or a
non-empty namespace differing from the resolved request namespace is a Bad
Request before the backend is touched, while an identity-resolution failure
skips the check entirely; then admission, the timeout executor, self-link
injection and a 200 response (`TestUpdateAllowsMissingNamespace`, source
lines 934-964). -/
def handleUpdate (deadlineFirst : Bool) (adm : Admission) (linker : SelfLinker)
    (kind : String) (reqNs : Option String) (pathName : String)
    (body : DecodeResult) (s : SimpleRESTStorage) : HandlerResult :=
  match body with
  | .malformed => ⟨errorResponse malformedError, s, []⟩
  | .wrongKind k => ⟨errorResponse (wrongKindError k), s, []⟩
  | .ok obj =>
    let checkOK : Bool :=
      match linker.resolveName obj, linker.resolveNamespace obj with
      | .ok n, .ok ns =>
        if n ≠ pathName then false
        else if ns ≠ "" ∧ ns ≠ resolveItemNamespace reqNs then false
        else true
      | _, _ => true
    if checkOK then
      if adm Operation.update then
        let p := s.Update (resolveItemNamespace reqNs) obj
        if deadlineFirst then ⟨serverTimeoutResponse, p.1, []⟩
        else
          match p.2 with
          | .error e => ⟨errorResponse e, p.1, []⟩
          | .ok out =>
            match setSelfLink linker (itemPath kind pathName) out with
            | none => ⟨{ code := 200, body := .obj out }, p.1, []⟩
            | some (out', link) => ⟨{ code := 200, body := .obj out' }, p.1, [link]⟩
      else ⟨errorResponse forbiddenError, s, []⟩
    else ⟨errorResponse mismatchError, s, []⟩

/-- Modelled from the spec: the Delete handler (spec §4.3) — admission, then
the timeout executor around the backend call, answering a success `Status`
envelope with 200 on completion. -/
def handleDelete (deadlineFirst : Bool) (adm : Admission) (reqNs : Option String)
    (name : String) (s : SimpleRESTStorage) : HandlerResult :=
  if adm Operation.delete then
    let p := s.Delete (resolveItemNamespace reqNs) name
    if deadlineFirst then ⟨serverTimeoutResponse, p.1, []⟩
    else
      match p.2 with
      | .error e => ⟨errorResponse e, p.1, []⟩
      | .ok _ =>
        ⟨{ code := 200
           body := .status { isFailure := false, message := "", reason := .unknown, code := 200 } },
          p.1, []⟩
  else ⟨errorResponse forbiddenError, s, []⟩

/-- HTTP verbs appearing in the test tables. -/
inductive Verb where
  | GET
  | POST
  | PUT
  | DELETE
  | PATCH
deriving DecidableEq, Repr

/-- A segment of a route template: a literal, or a single-segment parameter
(the `{name}` of the curly router), which matches any non-empty segment. -/
inductive Seg where
  | lit (s : String)
  | param
deriving DecidableEq, Repr

/-- The optional capabilities a storage backend may implement
(spec §3 Storage Backend): any subset of List, Get, Create, Update, Delete,
Watch, ResourceLocation; fixed at registration time. -/
structure Capabilities where
  list : Bool
  get : Bool
  create : Bool
  update : Bool
  delete : Bool
  watch : Bool
  resourceLocation : Bool
deriving DecidableEq, Repr

/-- The capability set of `SimpleRESTStorage`, which implements everything
(source lines 204-324). -/
def allCaps : Capabilities := ⟨true, true, true, true, true, true, true⟩

/-- The capability set of `UnimplementedRESTStorage`, which implements only
`New` and none of the optional operations (source lines 379-383). -/
def noCaps : Capabilities := ⟨false, false, false, false, false, false, false⟩

/-- Modelled from the spec: route installation as a pure function of the
backend's capability set (spec §4.2): each implemented capability installs
exactly its routes under `/api/version`, and nothing else is registered. -/
def routesFor (c : Capabilities) (kind : String) : List (Verb × List Seg) :=
  (if c.list then [(Verb.GET, [Seg.lit "api", Seg.lit "version", Seg.lit kind])] else []) ++
  (if c.create then [(Verb.POST, [Seg.lit "api", Seg.lit "version", Seg.lit kind])] else []) ++
  (if c.get then [(Verb.GET, [Seg.lit "api", Seg.lit "version", Seg.lit kind, Seg.param])] else []) ++
  (if c.update then [(Verb.PUT, [Seg.lit "api", Seg.lit "version", Seg.lit kind, Seg.param])] else []) ++
  (if c.delete then [(Verb.DELETE, [Seg.lit "api", Seg.lit "version", Seg.lit kind, Seg.param])] else []) ++
  (if c.watch then
    [(Verb.GET, [Seg.lit "api", Seg.lit "version", Seg.lit "watch", Seg.lit kind]),
     (Verb.GET, [Seg.lit "api", Seg.lit "version", Seg.lit "watch", Seg.lit kind, Seg.param])] else []) ++
  (if c.resourceLocation then
    [(Verb.GET, [Seg.lit "api", Seg.lit "version", Seg.lit "proxy", Seg.lit kind, Seg.param]),
     (Verb.GET, [Seg.lit "api", Seg.lit "version", Seg.lit "redirect", Seg.lit kind, Seg.param])] else [])

/-- Whether one template segment accepts one path segment. -/
def segMatches : Seg → String → Bool
  | .lit s, t => s == t
  | .param, t => t != ""

/-- Whether a route template matches a full path, segment by segment. -/
def pathMatches : List Seg → List String → Bool
  | [], [] => true
  | sg :: sgs, t :: ts => segMatches sg t && pathMatches sgs ts
  | _, _ => false

/-- Outcome of routing a verb and path against the installed route table. -/
inductive RouteOutcome where
  | handled
  | methodNotAllowed
  | notFound
deriving DecidableEq, Repr

/-- Modelled from the spec: routing — a matched shape with a matched verb is
dispatched; a matched shape with the wrong verb is Method Not Allowed; an
unmatched shape is Not Found (spec §4.3 ResolvePath). -/
def routeDispatch (routes : List (Verb × List Seg)) (v : Verb) (path : List String) :
    RouteOutcome :=
  if routes.any (fun r => decide (r.1 = v) && pathMatches r.2 path) then .handled
  else if routes.any (fun r => pathMatches r.2 path) then .methodNotAllowed
  else .notFound

/-- The HTTP status a non-dispatched routing outcome projects to. -/
def RouteOutcome.status : RouteOutcome → Option Nat
  | .handled => none
  | .methodNotAllowed => some 405
  | .notFound => some 404

/-- Digits of a candidate duration token. -/
def digitsToNat (ds : List Char) : Nat :=
  ds.foldl (fun a c => a * 10 + (c.toNat - 48)) 0

/-- Modelled from the spec: the unit suffixes of Go duration syntax and
their scale in nanoseconds (`ns`, `us`, `ms`, `s`, `m`, `h`). -/
def unitScale : List Char → Option (Nat × List Char)
  | 'n' :: 's' :: r => some (1, r)
  | 'u' :: 's' :: r => some (1000, r)
  | 'm' :: 's' :: r => some (1000000, r)
  | 'm' :: r => some (60000000000, r)
  | 's' :: r => some (1000000000, r)
  | 'h' :: r => some (3600000000000, r)
  | _ => none

/-- Modelled from the spec: one or more `<digits><unit>` groups of duration
syntax, summed in nanoseconds; fuel bounds the recursion by the input
length.  Anything else fails. -/
def parseGroups : Nat → List Char → Option Nat
  | 0, _ => none
  | fuel + 1, cs =>
    let ds := cs.takeWhile Char.isDigit
    if ds.isEmpty then none
    else
      match unitScale (cs.dropWhile Char.isDigit) with
      | none => none
      | some (scale, rest) =>
        let v := digitsToNat ds * scale
        if rest.isEmpty then some v
        else
          match parseGroups fuel rest with
          | none => none
          | some w => some (v + w)

/-- Modelled from the spec: Go-style duration parsing (`timeout` query
parameter, spec §4.5); `none` on the empty string or anything that is not
duration syntax. -/
def parseDuration (str : String) : Option Nat :=
  parseGroups (str.length + 1) str.data

/-- Thirty seconds in nanoseconds, the default timeout. -/
def thirtySeconds : Nat := 30 * 1000000000

/-- Modelled from the spec: `parseTimeout` — the deadline is read from the
`timeout` query parameter, and an unparseable or absent value falls back to
the 30-second default (spec §4.5; `TestParseTimeout`, source lines
1152-1162). -/
def parseTimeout (str : String) : Nat :=
  match parseDuration str with
  | some d => d
  | none => thirtySeconds

/-- Regular expressions over characters: empty language, empty word, any
character, a literal character, sequencing, alternation and iteration. -/
inductive Regex where
  | emptySet
  | eps
  | anyChar
  | chr (c : Char)
  | seq (a b : Regex)
  | alt (a b : Regex)
  | star (a : Regex)
deriving DecidableEq, Repr

/-- Whether a regular expression accepts the empty word. -/
def Regex.nullable : Regex → Bool
  | .emptySet => false
  | .eps => true
  | .anyChar => false
  | .chr _ => false
  | .seq a b => a.nullable && b.nullable
  | .alt a b => a.nullable || b.nullable
  | .star _ => true

/-- Brzozowski derivative of a regular expression by one character. -/
def Regex.deriv : Regex → Char → Regex
  | .emptySet, _ => .emptySet
  | .eps, _ => .emptySet
  | .anyChar, _ => .eps
  | .chr c, d => if c = d then .eps else .emptySet
  | .seq a b, d =>
    if a.nullable then .alt (.seq (a.deriv d) b) (b.deriv d) else .seq (a.deriv d) b
  | .alt a b, d => .alt (a.deriv d) (b.deriv d)
  | .star a, d => .seq (a.deriv d) (.star a)

/-- Whether some prefix of the character list is accepted. -/
def matchFromStart : Regex → List Char → Bool
  | r, [] => r.nullable
  | r, c :: cs => r.nullable || matchFromStart (r.deriv c) cs

/-- Modelled from the spec: unanchored matching as Go's `MatchString` — the
expression may match starting at any position of the subject. -/
def regexSearch (r : Regex) : List Char → Bool
  | [] => r.nullable
  | c :: cs => matchFromStart r (c :: cs) || regexSearch r cs

/-- Pattern translation helper: sequence the accumulated expression with a
pending atom, if any. -/
def flushAtom (acc : Regex) : Option Regex → Regex
  | none => acc
  | some a => .seq acc a

/-- Pattern translation: literals, `.` as any character and a postfix `*`
on the previous atom; `*` with no preceding atom is rejected (the shape of
`util.CompileRegexps` input in `TestCORSAllowedOrigins`). -/
def parsePatternAux : List Char → Regex → Option Regex → Option Regex
  | [], acc, pend => some (flushAtom acc pend)
  | '*' :: cs, acc, some a => parsePatternAux cs (.seq acc (.star a)) none
  | '*' :: _, _, none => none
  | '.' :: cs, acc, pend => parsePatternAux cs (flushAtom acc pend) (some .anyChar)
  | c :: cs, acc, pend => parsePatternAux cs (flushAtom acc pend) (some (.chr c))

/-- Compile one allowed-origin pattern. -/
def parsePattern (p : String) : Option Regex :=
  parsePatternAux p.data .eps none

/-- Modelled from the spec: whether the `Origin` header value matches one of
the configured allowed-origin regular expressions (spec §4.6). -/
def originAllowed (patterns : List String) (origin : String) : Bool :=
  patterns.any (fun p =>
    match parsePattern p with
    | some r => regexSearch r origin.data
    | none => false)

/-- The four permission headers the CORS middleware may set. -/
structure CorsHeaders where
  allowOrigin : Option String
  allowCredentials : Option String
  allowHeaders : Option String
  allowMethods : Option String
deriving DecidableEq, Repr

/-- No permission headers set. -/
def noCorsHeaders : CorsHeaders := ⟨none, none, none, none⟩

/-- Modelled from the spec: the CORS middleware (spec §4.6) — on a matching
`Origin` header it sets `Access-Control-Allow-Origin` to the literal
requesting origin plus the credentials, headers and methods permissions; on
no match or an absent header (the empty string, as Go's `Header.Get`
reports absence) it sets none of them; either way the wrapped handler's
response passes through unmodified. -/
def CORS (patterns : List String) (allowedHeaders allowedMethods credentials : String)
    (origin : String) (underlying : Response) : CorsHeaders × Response :=
  if origin ≠ "" ∧ originAllowed patterns origin then
    (⟨some origin, some credentials, some allowedHeaders, some allowedMethods⟩, underlying)
  else
    (noCorsHeaders, underlying)

/-- Whether the first list appears at the head of the second. -/
def startsWithChars : List Char → List Char → Bool
  | [], _ => true
  | _ :: _, [] => false
  | a :: as, b :: bs => a == b && startsWithChars as bs

/-- Whether the first list appears contiguously anywhere in the second. -/
def containsChars (needle : List Char) : List Char → Bool
  | [] => startsWithChars needle []
  | c :: cs => startsWithChars needle (c :: cs) || containsChars needle cs

/-- Substring containment on strings, used to state "the body message
contains ...". -/
def strContains (hay needle : String) : Bool :=
  containsChars needle.data hay.data

/-- The message text of a `Status`-carrying response (empty for object and
list bodies). -/
def Response.statusMessage : Response → String
  | { body := .status st, .. } => st.message
  | _ => ""

theorem startsWithChars_append (l t : List Char) :
    startsWithChars l (l ++ t) = true := by
  induction l with
  | nil => rfl
  | cons c cs ih => simp [startsWithChars, ih]

theorem containsChars_append_right (l r n : List Char)
    (h : containsChars n r = true) : containsChars n (l ++ r) = true := by
  induction l with
  | nil => simpa using h
  | cons c cs ih => simp [containsChars, Bool.or_eq_true]; right; exact ih

theorem containsChars_nil (hay : List Char) : containsChars [] hay = true := by
  cases hay <;> simp [containsChars, startsWithChars]

theorem containsChars_self_append (pre n t : List Char) :
    containsChars n (pre ++ (n ++ t)) = true := by
  apply containsChars_append_right
  cases n with
  | nil => simpa using containsChars_nil t
  | cons c cs => simp [containsChars, Bool.or_eq_true]; left; exact startsWithChars_append _ _

theorem strContains_wrongKind (k : String) :
    strContains (wrongKindError k).message "must be of type Simple" = true := by
  show containsChars _ _ = true
  have h1 : (("unable to decode " ++ (k ++ " object: must be of type Simple")).data)
      = "unable to decode ".data ++ (k.data ++ " object: must be of type Simple".data) := by
    simp [String.data_append]
  simp only [wrongKindError, String.append_assoc]
  rw [h1]
  apply containsChars_append_right
  apply containsChars_append_right
  decide

/-- C8: `parseTimeout` applied to an empty string or to any string that is
not valid duration syntax returns 30 seconds, and applied to a valid
duration string such as "10s" returns that duration (10 seconds). -/
theorem C8_parseTimeout_defaults :
    parseTimeout "" = thirtySeconds ∧
    parseTimeout "not a timeout" = thirtySeconds ∧
    parseTimeout "10s" = 10 * 1000000000 ∧
    ∀ str : String, parseDuration str = none → parseTimeout str = thirtySeconds := by
  refine ⟨rfl, rfl, rfl, ?_⟩
  intro str h
  simp [parseTimeout, h]

/-- C8 witness: the general unparseable-input clause of
`C8_parseTimeout_defaults` instantiated at the concrete string "bogus". -/
theorem C8_parseTimeout_defaults_witness :
    parseDuration "bogus" = none ∧ parseTimeout "bogus" = thirtySeconds :=
  ⟨rfl, C8_parseTimeout_defaults.2.2.2 "bogus" rfl⟩

/-- C7: for every POST or PUT whose body decodes to a registered kind
different from the kind the route is registered for, the response is HTTP
400 Bad Request with a body message containing "must be of type Simple",
and the backend is not invoked. -/
theorem C7_wrong_kind_rejected (dl : Bool) (adm : Admission) (linker : SelfLinker)
    (kind : String) (reqNs : Option String) (pathName k : String)
    (s : SimpleRESTStorage) :
    ((handleCreate dl adm linker kind reqNs (.wrongKind k) s).resp.code = 400 ∧
     (handleCreate dl adm linker kind reqNs (.wrongKind k) s).storage = s ∧
     strContains (handleCreate dl adm linker kind reqNs (.wrongKind k) s).resp.statusMessage
       "must be of type Simple" = true) ∧
    ((handleUpdate dl adm linker kind reqNs pathName (.wrongKind k) s).resp.code = 400 ∧
     (handleUpdate dl adm linker kind reqNs pathName (.wrongKind k) s).storage = s ∧
     strContains (handleUpdate dl adm linker kind reqNs pathName (.wrongKind k) s).resp.statusMessage
       "must be of type Simple" = true) := by
  refine ⟨⟨rfl, rfl, ?_⟩, ⟨rfl, rfl, ?_⟩⟩ <;>
    simpa [handleCreate, handleUpdate, errorResponse, Response.statusMessage] using
      strContains_wrongKind k

/-- C2: for every registered resource kind, a request targeting a
capability the backend does not implement is routed Not Found (a backend
implementing no capabilities exposes no route at all, so every verb and
path is 404), while a structurally invalid verb/path combination on an
implemented capability is Method Not Allowed, not Not Found — including the
concrete table of `TestNotFound` (source lines 336-377) for a
fully-implemented backend registered under "foo". -/
theorem C2_capability_routing :
    (∀ (kind : String) (v : Verb) (path : List String),
      routeDispatch (routesFor noCaps kind) v path = .notFound) ∧
    (∀ kind name : String, name ≠ "" →
      routeDispatch (routesFor allCaps kind) .PATCH ["api", "version", kind] = .methodNotAllowed ∧
      routeDispatch (routesFor allCaps kind) .DELETE ["api", "version", kind] = .methodNotAllowed ∧
      routeDispatch (routesFor allCaps kind) .PUT ["api", "version", kind] = .methodNotAllowed ∧
      routeDispatch (routesFor allCaps kind) .POST ["api", "version", kind, name] = .methodNotAllowed) ∧
    (routeDispatch (routesFor allCaps "foo") .GET ["api", ""] = .notFound ∧
     routeDispatch (routesFor allCaps "foo") .GET ["api", "version", "blah"] = .notFound ∧
     routeDispatch (routesFor allCaps "foo") .GET ["api", "version", "foo", "bar", "baz"] = .notFound ∧
     routeDispatch (routesFor allCaps "foo") .DELETE ["api", "version", "foo", "bar", "baz"] = .notFound ∧
     routeDispatch (routesFor allCaps "foo") .PUT ["api", "version", "foo", "bar", "baz"] = .notFound ∧
     routeDispatch (routesFor allCaps "foo") .GET ["api", "version", "watch", ""] = .notFound ∧
     routeDispatch (routesFor allCaps "foo") .POST ["api", "version", "watch", "foo", "bar"] = .methodNotAllowed) := by
  refine ⟨?_, ?_, by decide⟩
  · intro kind v path
    simp [routesFor, noCaps, routeDispatch]
  · intro kind name h
    have hb : (name != "") = true := by simpa using h
    refine ⟨?_, ?_, ?_, ?_⟩ <;>
      simp [routeDispatch, routesFor, allCaps, pathMatches, segMatches, hb]

/-- C2 witness: the method-not-allowed clause of `C2_capability_routing`
instantiated at kind "foo" and item name "bar". -/
theorem C2_capability_routing_witness :
    ("bar" : String) ≠ "" ∧
    routeDispatch (routesFor allCaps "foo") .POST ["api", "version", "foo", "bar"] =
      .methodNotAllowed :=
  ⟨by decide, (C2_capability_routing.2.1 "foo" "bar" (by decide)).2.2.2⟩

theorem originAllowed_dotStar (o : String) : originAllowed [".*"] o = true := by
  simp only [originAllowed, List.any_cons, List.any_nil, Bool.or_false]
  show (match parsePattern ".*" with
    | some r => regexSearch r o.data
    | none => false) = true
  cases h : o.data with
  | nil => rfl
  | cons c cs => simp [parsePattern, parsePatternAux, flushAtom, regexSearch, matchFromStart,
      Regex.nullable]

/-- C9: requests whose Origin header matches one of the allowed-origin
regular expressions receive the four permission headers with
`Access-Control-Allow-Origin` set to the literal requesting origin; a
non-matching or absent Origin (the empty string, including under an empty
allow-list) receives none of the four headers and the wrapped response
passes through unmodified; and the pattern ".*" matches any origin
(`TestCORSAllowedOrigins`, source lines 1447-1519). -/
theorem C9_cors_policy (patterns : List String) (ah am cred origin : String)
    (resp : Response) :
    (origin ≠ "" → originAllowed patterns origin = true →
      CORS patterns ah am cred origin resp =
        (⟨some origin, some cred, some ah, some am⟩, resp)) ∧
    (originAllowed patterns origin = false →
      CORS patterns ah am cred origin resp = (noCorsHeaders, resp)) ∧
    (CORS patterns ah am cred "" resp = (noCorsHeaders, resp)) ∧
    (∀ o : String, originAllowed [".*"] o = true) ∧
    originAllowed ["example.com"] "example.com" = true ∧
    originAllowed ["example.com"] "not-allowed.com" = false ∧
    (∀ o : String, originAllowed [] o = false) := by
  refine ⟨?_, ?_, by simp [CORS], originAllowed_dotStar, by decide, by decide,
    fun o => rfl⟩
  · intro h1 h2
    simp [CORS, h1, h2]
  · intro h
    simp [CORS, h]

/-- C9 witness: the matching and non-matching clauses of `C9_cors_policy`
instantiated at the allow-list ["example.com"] with origins "example.com"
and "not-allowed.com". -/
theorem C9_cors_policy_witness :
    ("example.com" : String) ≠ "" ∧
    originAllowed ["example.com"] "example.com" = true ∧
    CORS ["example.com"] "X-Header" "GET" "true" "example.com"
        { code := 200, body := .status { isFailure := false, message := "", reason := .unknown, code := 200 } } =
      (⟨some "example.com", some "true", some "X-Header", some "GET"⟩,
        { code := 200, body := .status { isFailure := false, message := "", reason := .unknown, code := 200 } }) ∧
    originAllowed ["example.com"] "not-allowed.com" = false ∧
    CORS ["example.com"] "X-Header" "GET" "true" "not-allowed.com"
        { code := 200, body := .status { isFailure := false, message := "", reason := .unknown, code := 200 } } =
      (noCorsHeaders,
        { code := 200, body := .status { isFailure := false, message := "", reason := .unknown, code := 200 } }) :=
  ⟨by decide, by decide,
    (C9_cors_policy ["example.com"] "X-Header" "GET" "true" "example.com" _).1
      (by decide) (by decide),
    by decide,
    (C9_cors_policy ["example.com"] "X-Header" "GET" "true" "not-allowed.com" _).2.1
      (by decide)⟩

/-- C1: for every PUT update: when the SelfLinker resolves the decoded
body's identity, a name differing from the path's name, or a non-empty
namespace differing from the resolved request namespace, yields 400 Bad
Request with the backend untouched; an omitted (empty) body namespace
proceeds and the backend is invoked with the resolved namespace; and when
the SelfLinker errors the consistency check is skipped entirely and the
backend is invoked with the object as-is
(`TestUpdateRequiresMatchingName`, `TestUpdatePreventsMismatchedNamespace`,
`TestUpdateAllowsMissingNamespace`,
`TestUpdateAllowsMismatchedNamespaceOnError`). -/
theorem C1_update_consistency (adm : Admission) (linker : SelfLinker)
    (kind : String) (reqNs : Option String) (pathName : String) (obj : Simple)
    (s : SimpleRESTStorage) :
    (∀ n ns, linker.resolveName obj = .ok n → linker.resolveNamespace obj = .ok ns →
      n ≠ pathName →
      handleUpdate false adm linker kind reqNs pathName (.ok obj) s =
        ⟨errorResponse mismatchError, s, []⟩ ∧
      (errorResponse mismatchError).code = 400) ∧
    (∀ n ns, linker.resolveName obj = .ok n → linker.resolveNamespace obj = .ok ns →
      ns ≠ "" → ns ≠ resolveItemNamespace reqNs →
      handleUpdate false adm linker kind reqNs pathName (.ok obj) s =
        ⟨errorResponse mismatchError, s, []⟩) ∧
    (adm Operation.update = true → linker.resolveName obj = .ok pathName →
      linker.resolveNamespace obj = .ok "" →
      (handleUpdate false adm linker kind reqNs pathName (.ok obj) s).storage.updated = some obj ∧
      (handleUpdate false adm linker kind reqNs pathName (.ok obj) s).storage.actualNamespace =
        some (resolveItemNamespace reqNs)) ∧
    (adm Operation.update = true →
      (linker.resolveName obj = .error () ∨ linker.resolveNamespace obj = .error ()) →
      (handleUpdate false adm linker kind reqNs pathName (.ok obj) s).storage.updated = some obj ∧
      (handleUpdate false adm linker kind reqNs pathName (.ok obj) s).storage.actualNamespace =
        some (resolveItemNamespace reqNs)) := by
  refine ⟨?_, ?_, ?_, ?_⟩
  · intro n ns hn hns hne
    refine ⟨?_, rfl⟩
    simp [handleUpdate, hn, hns, hne]
  · intro n ns hn hns hne hne2
    rcases eq_or_ne n pathName with heq | hne3
    · subst heq
      simp [handleUpdate, hn, hns, hne, hne2]
    · simp [handleUpdate, hn, hns, hne3]
  · intro hadm hn hns
    simp only [handleUpdate, hn, hns]
    simp only [ne_eq, not_true_eq_false, reduceIte, if_false, hadm, if_true]
    cases h : s.errors "update" with
    | some e =>
      simp [SimpleRESTStorage.Update, h]
    | none =>
      cases hl : setSelfLink linker (itemPath kind pathName) obj with
      | none => simp [SimpleRESTStorage.Update, h, hl]
      | some pr => simp [SimpleRESTStorage.Update, h, hl]
  · intro hadm herr
    have hskip :
        handleUpdate false adm linker kind reqNs pathName (.ok obj) s =
          (if adm Operation.update then
            let p := s.Update (resolveItemNamespace reqNs) obj
            match p.2 with
            | .error e => ⟨errorResponse e, p.1, []⟩
            | .ok out =>
              match setSelfLink linker (itemPath kind pathName) out with
              | none => ⟨{ code := 200, body := .obj out }, p.1, []⟩
              | some (out', link) => ⟨{ code := 200, body := .obj out' }, p.1, [link]⟩
          else ⟨errorResponse forbiddenError, s, []⟩) := by
      rcases herr with h | h
      · simp [handleUpdate, h]
      · cases hn : linker.resolveName obj with
        | error u => simp [handleUpdate, hn]
        | ok n => simp [handleUpdate, hn, h]
    rw [hskip]
    simp only [hadm, if_true]
    cases h : s.errors "update" with
    | some e =>
      simp [SimpleRESTStorage.Update, h]
    | none =>
      cases hl : setSelfLink linker (itemPath kind pathName) obj with
      | none => simp [SimpleRESTStorage.Update, h, hl]
      | some pr => simp [SimpleRESTStorage.Update, h, hl]

/-- C1 witness: the four clauses of `C1_update_consistency` instantiated at
concrete requests — a mismatched body name, a mismatched non-empty body
namespace, an omitted body namespace, and a linker that cannot resolve
identity. -/
theorem C1_update_consistency_witness :
    (handleUpdate false alwaysAdmit accessorLinker "simple" none "id"
        (.ok ⟨"other", "", "", "x"⟩) emptyStorage =
      ⟨errorResponse mismatchError, emptyStorage, []⟩) ∧
    (handleUpdate false alwaysAdmit accessorLinker "simple" none "id"
        (.ok ⟨"id", "other", "", "x"⟩) emptyStorage =
      ⟨errorResponse mismatchError, emptyStorage, []⟩) ∧
    ((handleUpdate false alwaysAdmit accessorLinker "simple" none "id"
        (.ok ⟨"id", "", "", "x"⟩) emptyStorage).storage.updated = some ⟨"id", "", "", "x"⟩) ∧
    ((handleUpdate false alwaysAdmit (setTestLinker "a" "b" true) "simple" none "id"
        (.ok ⟨"id", "other", "", "x"⟩) emptyStorage).storage.updated =
      some ⟨"id", "other", "", "x"⟩) :=
  ⟨((C1_update_consistency alwaysAdmit accessorLinker "simple" none "id"
      ⟨"other", "", "", "x"⟩ emptyStorage).1 "other" "" rfl rfl (by decide)).1,
   (C1_update_consistency alwaysAdmit accessorLinker "simple" none "id"
      ⟨"id", "other", "", "x"⟩ emptyStorage).2.1 "id" "other" rfl rfl (by decide) (by decide),
   ((C1_update_consistency alwaysAdmit accessorLinker "simple" none "id"
      ⟨"id", "", "", "x"⟩ emptyStorage).2.2.1 rfl rfl rfl).1,
   ((C1_update_consistency alwaysAdmit (setTestLinker "a" "b" true) "simple" none "id"
      ⟨"id", "other", "", "x"⟩ emptyStorage).2.2.2 rfl (Or.inl rfl)).1⟩

/-- C3: under the always-deny admission policy, create, update and delete
requests that reach the admission gate are answered 403 Forbidden and the
backend is never invoked — the returned storage is exactly the input
storage, so `created`/`updated`/`deleted` remain unset
(`TestCreateInvokesAdmissionControl`, `TestUpdateInvokesAdmissionControl`,
`TestDeleteInvokesAdmissionControl`). -/
theorem C3_admission_denial (linker : SelfLinker) (kind : String)
    (reqNs : Option String) (pathName : String) (obj : Simple)
    (s : SimpleRESTStorage) :
    (handleCreate false alwaysDeny linker kind reqNs (.ok obj) s =
      ⟨errorResponse forbiddenError, s, []⟩) ∧
    (handleDelete false alwaysDeny reqNs pathName s =
      ⟨errorResponse forbiddenError, s, []⟩) ∧
    ((∀ n ns, linker.resolveName obj = .ok n → linker.resolveNamespace obj = .ok ns →
        n = pathName ∧ (ns = "" ∨ ns = resolveItemNamespace reqNs)) →
      handleUpdate false alwaysDeny linker kind reqNs pathName (.ok obj) s =
        ⟨errorResponse forbiddenError, s, []⟩) ∧
    (errorResponse forbiddenError).code = 403 := by
  refine ⟨by simp [handleCreate, alwaysDeny], by simp [handleDelete, alwaysDeny], ?_, rfl⟩
  intro hpass
  cases hn : linker.resolveName obj with
  | error u => simp [handleUpdate, hn, alwaysDeny]
  | ok n =>
    cases hns : linker.resolveNamespace obj with
    | error u => simp [handleUpdate, hn, hns, alwaysDeny]
    | ok ns =>
      obtain ⟨h1, h2⟩ := hpass n ns hn hns
      subst h1
      rcases h2 with h2 | h2
      · subst h2
        simp [handleUpdate, hn, hns, alwaysDeny]
      · simp [handleUpdate, hn, hns, h2, alwaysDeny]

/-- C3 witness: `C3_admission_denial` instantiated at a concrete request
whose linker cannot resolve identity, so the update consistency check is
vacuously passed. -/
theorem C3_admission_denial_witness :
    (handleCreate false alwaysDeny (setTestLinker "a" "b" true) "simple" none
        (.ok ⟨"id", "", "", "x"⟩) emptyStorage =
      ⟨errorResponse forbiddenError, emptyStorage, []⟩) ∧
    (handleDelete false alwaysDeny none "id" emptyStorage =
      ⟨errorResponse forbiddenError, emptyStorage, []⟩) ∧
    (handleUpdate false alwaysDeny (setTestLinker "a" "b" true) "simple" none "id"
        (.ok ⟨"id", "", "", "x"⟩) emptyStorage =
      ⟨errorResponse forbiddenError, emptyStorage, []⟩) :=
  have h := C3_admission_denial (setTestLinker "a" "b" true) "simple" none "id"
    ⟨"id", "", "", "x"⟩ emptyStorage
  ⟨h.1, h.2.1, h.2.2.1 (by intro n ns hn; simp [setTestLinker] at hn)⟩

/-- C4: when the deadline elapses before the backend worker finishes, a
mutating request is answered immediately with the `ServerTimeout` failure
Status (failure, reason `Timeout`, the `StatusServerTimeout` HTTP code),
for every input backend regardless of the worker's eventual outcome — the
result is discarded — while the worker still runs to completion, observable
as the recorded `created`/`updated`/`deleted` side effect
(`TestCreateTimeout`, source lines 1423-1445). -/
theorem C4_timeout_race (adm : Admission) (linker : SelfLinker) (kind : String)
    (reqNs : Option String) (pathName : String) (obj : Simple)
    (s : SimpleRESTStorage)
    (hc : adm Operation.create = true) (hu : adm Operation.update = true)
    (hd : adm Operation.delete = true) :
    ((handleCreate true adm linker kind reqNs (.ok obj) s).resp = serverTimeoutResponse ∧
     (handleCreate true adm linker kind reqNs (.ok obj) s).storage.created = some obj) ∧
    ((∀ n ns, linker.resolveName obj = .ok n → linker.resolveNamespace obj = .ok ns →
        n = pathName ∧ (ns = "" ∨ ns = resolveItemNamespace reqNs)) →
      (handleUpdate true adm linker kind reqNs pathName (.ok obj) s).resp =
          serverTimeoutResponse ∧
      (handleUpdate true adm linker kind reqNs pathName (.ok obj) s).storage.updated =
          some obj) ∧
    ((handleDelete true adm reqNs pathName s).resp = serverTimeoutResponse ∧
     (handleDelete true adm reqNs pathName s).storage.deleted = some pathName) ∧
    serverTimeoutResponse.code = StatusServerTimeout ∧
    serverTimeoutResponse.body =
      .status { isFailure := true
                message := "request did not complete within allowed duration"
                reason := .timeout, code := StatusServerTimeout } := by
  refine ⟨?_, ?_, ?_, rfl, rfl⟩
  · constructor <;> simp [handleCreate, hc, SimpleRESTStorage.Create]
  · intro hpass
    have hgoal : handleUpdate true adm linker kind reqNs pathName (.ok obj) s =
        ⟨serverTimeoutResponse, (s.Update (resolveItemNamespace reqNs) obj).1, []⟩ := by
      cases hn : linker.resolveName obj with
      | error u => simp [handleUpdate, hn, hu]
      | ok n =>
        cases hns : linker.resolveNamespace obj with
        | error u => simp [handleUpdate, hn, hns, hu]
        | ok ns =>
          obtain ⟨h1, h2⟩ := hpass n ns hn hns
          subst h1
          rcases h2 with h2 | h2
          · subst h2
            simp [handleUpdate, hn, hns, hu]
          · simp [handleUpdate, hn, hns, h2, hu]
    rw [hgoal]
    exact ⟨rfl, rfl⟩
  · constructor <;> simp [handleDelete, hd, SimpleRESTStorage.Delete]

/-- C4 witness: `C4_timeout_race` instantiated at concrete
deadline-elapsed create, update and delete requests under the always-allow
policy. -/
theorem C4_timeout_race_witness :
    ((handleCreate true alwaysAdmit (setTestLinker "a" "b" true) "foo" none
        (.ok ⟨"", "", "", "foo"⟩) emptyStorage).resp = serverTimeoutResponse ∧
     (handleCreate true alwaysAdmit (setTestLinker "a" "b" true) "foo" none
        (.ok ⟨"", "", "", "foo"⟩) emptyStorage).storage.created = some ⟨"", "", "", "foo"⟩) ∧
    ((handleUpdate true alwaysAdmit (setTestLinker "a" "b" true) "foo" none "id"
        (.ok ⟨"", "", "", "foo"⟩) emptyStorage).resp = serverTimeoutResponse) ∧
    ((handleDelete true alwaysAdmit none "id" emptyStorage).resp = serverTimeoutResponse) :=
  have h := C4_timeout_race alwaysAdmit (setTestLinker "a" "b" true) "foo" none "id"
    ⟨"", "", "", "foo"⟩ emptyStorage rfl rfl rfl
  ⟨h.1, (h.2.1 (by intro n ns hn; simp [setTestLinker] at hn)).1, h.2.2.1.1⟩

/-- C10: on a successful backend call, a POST create request is answered
with HTTP 201 Created while a PUT update request is answered with HTTP 200
OK (`TestCreate`, source lines 1184-1238, and
`TestUpdateAllowsMissingNamespace`, source lines 934-964; the spec states
neither code). -/
theorem C10_success_codes (adm : Admission) (linker : SelfLinker) (kind : String)
    (reqNs : Option String) (pathName : String) (obj : Simple)
    (s : SimpleRESTStorage)
    (hac : adm Operation.create = true) (hau : adm Operation.update = true)
    (hce : s.errors "create" = none) (hue : s.errors "update" = none)
    (hn : linker.resolveName obj = .ok pathName)
    (hns : linker.resolveNamespace obj = .ok "") :
    (handleCreate false adm linker kind reqNs (.ok obj) s).resp.code = 201 ∧
    (handleUpdate false adm linker kind reqNs pathName (.ok obj) s).resp.code = 200 := by
  constructor
  · rcases eq_or_ne pathName "" with h | h <;>
      simp [handleCreate, hac, SimpleRESTStorage.Create, hce, setSelfLinkAddName,
        hn, hns, h]
  · simp [handleUpdate, hn, hns, hau, SimpleRESTStorage.Update, hue, setSelfLink]

/-- C10 witness: `C10_success_codes` instantiated at a concrete request
whose linker resolves the path name and an empty namespace. -/
theorem C10_success_codes_witness :
    (handleCreate false alwaysAdmit (setTestLinker "bar" "" false) "foo" none
        (.ok ⟨"bar", "", "", "x"⟩) emptyStorage).resp.code = 201 ∧
    (handleUpdate false alwaysAdmit (setTestLinker "bar" "" false) "foo" none "bar"
        (.ok ⟨"bar", "", "", "x"⟩) emptyStorage).resp.code = 200 :=
  C10_success_codes alwaysAdmit (setTestLinker "bar" "" false) "foo" none "bar"
    ⟨"bar", "", "", "x"⟩ emptyStorage rfl rfl rfl rfl rfl rfl

/-- C5 counterexample: two successful backend calls each make zero
`SetSelfLink` calls, not exactly one.  First, a PUT whose backend update
succeeds (the response is 200 and the backend records the update) but whose
SelfLinker cannot resolve identity — exactly the situation of
`TestUpdateAllowsMismatchedNamespaceOnError` (source lines 966-1006), whose
linker returns an error and which asserts `selfLinker.called` stays false
after the successful update.  Second, a POST whose backend create succeeds
(201, create recorded) but whose object carries the zero-value identity:
link computation is skipped for the empty name (spec §4.3, the skip rule
pinned for list items by `TestSelfLinkSkipsEmptyName`). -/
theorem C5_counterexample_zero_calls :
    (handleUpdate false alwaysAdmit (setTestLinker "id" "default" true) "simple" none "id"
        (.ok ⟨"id", "other", "", "bar"⟩) emptyStorage).resp.code = 200 ∧
    (handleUpdate false alwaysAdmit (setTestLinker "id" "default" true) "simple" none "id"
        (.ok ⟨"id", "other", "", "bar"⟩) emptyStorage).storage.updated =
      some ⟨"id", "other", "", "bar"⟩ ∧
    (handleUpdate false alwaysAdmit (setTestLinker "id" "default" true) "simple" none "id"
        (.ok ⟨"id", "other", "", "bar"⟩) emptyStorage).linkCalls = [] ∧
    (handleCreate false alwaysAdmit accessorLinker "foo" none
        (.ok ⟨"", "", "", "foo"⟩) emptyStorage).resp.code = 201 ∧
    (handleCreate false alwaysAdmit accessorLinker "foo" none
        (.ok ⟨"", "", "", "foo"⟩) emptyStorage).storage.created =
      some ⟨"", "", "", "foo"⟩ ∧
    (handleCreate false alwaysAdmit accessorLinker "foo" none
        (.ok ⟨"", "", "", "foo"⟩) emptyStorage).linkCalls = [] :=
  ⟨rfl, rfl, rfl, rfl, rfl, rfl⟩

/-- C5 (amended): Get, Create and Update make exactly one `SetSelfLink`
call, with the canonical self-link, when the backend call succeeds and the
SelfLinker resolves the identity needed for the link (the namespace for
Get/Update, plus a non-empty name for Create); they make zero calls when
the backend call fails, or when link computation fails on a successful
call — a namespace-resolution error for Get and Update, and for Create a
name- or namespace-resolution error or a resolved empty name. -/
theorem C5_selflink_calls (adm : Admission) (linker : SelfLinker) (kind : String)
    (reqNs : Option String) (name pathName : String) (obj : Simple)
    (s : SimpleRESTStorage) :
    (∀ ns, s.errors "get" = none → linker.resolveNamespace s.item = .ok ns →
      (handleGet linker kind reqNs name s).linkCalls =
        [itemPath kind name ++ "?namespace=" ++ ns]) ∧
    (∀ e, s.errors "get" = some e →
      (handleGet linker kind reqNs name s).linkCalls = []) ∧
    (linker.resolveNamespace s.item = .error () →
      (handleGet linker kind reqNs name s).linkCalls = []) ∧
    (∀ n ns, adm Operation.create = true → s.errors "create" = none →
      linker.resolveName obj = .ok n → n ≠ "" → linker.resolveNamespace obj = .ok ns →
      (handleCreate false adm linker kind reqNs (.ok obj) s).linkCalls =
        [collectionPath kind ++ "/" ++ n ++ "?namespace=" ++ ns]) ∧
    (∀ e, s.errors "create" = some e →
      (handleCreate false adm linker kind reqNs (.ok obj) s).linkCalls = []) ∧
    (∀ ns, adm Operation.update = true → s.errors "update" = none →
      linker.resolveName obj = .ok pathName → linker.resolveNamespace obj = .ok ns →
      (ns = "" ∨ ns = resolveItemNamespace reqNs) →
      (handleUpdate false adm linker kind reqNs pathName (.ok obj) s).linkCalls =
        [itemPath kind pathName ++ "?namespace=" ++ ns]) ∧
    (∀ e, s.errors "update" = some e →
      (handleUpdate false adm linker kind reqNs pathName (.ok obj) s).linkCalls = []) ∧
    (adm Operation.create = true → s.errors "create" = none →
      (linker.resolveName obj = .error () ∨ linker.resolveName obj = .ok "" ∨
        linker.resolveNamespace obj = .error ()) →
      (handleCreate false adm linker kind reqNs (.ok obj) s).linkCalls = [] ∧
      (handleCreate false adm linker kind reqNs (.ok obj) s).storage.created = some obj) ∧
    (adm Operation.update = true → s.errors "update" = none →
      linker.resolveNamespace obj = .error () →
      (handleUpdate false adm linker kind reqNs pathName (.ok obj) s).linkCalls = [] ∧
      (handleUpdate false adm linker kind reqNs pathName (.ok obj) s).storage.updated =
        some obj) := by
  refine ⟨?_, ?_, ?_, ?_, ?_, ?_, ?_, ?_, ?_⟩
  · intro ns hge hns
    simp [handleGet, SimpleRESTStorage.Get, hge, setSelfLink, hns]
  · intro e hge
    simp [handleGet, SimpleRESTStorage.Get, hge]
  · intro hns
    cases hge : s.errors "get" with
    | some e => simp [handleGet, SimpleRESTStorage.Get, hge]
    | none => simp [handleGet, SimpleRESTStorage.Get, hge, setSelfLink, hns]
  · intro n ns hadm hce hn hne hns
    simp [handleCreate, hadm, SimpleRESTStorage.Create, hce, setSelfLinkAddName,
      hn, hne, hns]
  · intro e hce
    cases hadm : adm Operation.create with
    | false => simp [handleCreate, hadm]
    | true => simp [handleCreate, hadm, SimpleRESTStorage.Create, hce]
  · intro ns hadm hue hn hns hd
    rcases hd with h | h
    · subst h
      simp [handleUpdate, hn, hns, hadm, SimpleRESTStorage.Update, hue, setSelfLink]
    · subst h
      simp [handleUpdate, hn, hns, hadm, SimpleRESTStorage.Update, hue, setSelfLink]
  · intro e hue
    cases hn : linker.resolveName obj with
    | error u =>
      cases hadm : adm Operation.update with
      | false => simp [handleUpdate, hn, hadm]
      | true => simp [handleUpdate, hn, hadm, SimpleRESTStorage.Update, hue]
    | ok n =>
      cases hns : linker.resolveNamespace obj with
      | error u =>
        cases hadm : adm Operation.update with
        | false => simp [handleUpdate, hn, hns, hadm]
        | true => simp [handleUpdate, hn, hns, hadm, SimpleRESTStorage.Update, hue]
      | ok ns =>
        rcases eq_or_ne n pathName with h1 | h1
        · subst h1
          rcases eq_or_ne ns "" with h2 | h2
          · subst h2
            cases hadm : adm Operation.update with
            | false => simp [handleUpdate, hn, hns, hadm]
            | true => simp [handleUpdate, hn, hns, hadm, SimpleRESTStorage.Update, hue]
          · rcases eq_or_ne ns (resolveItemNamespace reqNs) with h3 | h3
            · cases hadm : adm Operation.update with
              | false => simp [handleUpdate, hn, hns, h2, h3, hadm]
              | true => simp [handleUpdate, hn, hns, h2, h3, hadm,
                  SimpleRESTStorage.Update, hue]
            · simp [handleUpdate, hn, hns, h2, h3]
        · simp [handleUpdate, hn, hns, h1]
  · intro hadm hce hcase
    rcases hcase with h | h | h
    · cases hns : linker.resolveNamespace obj with
      | error u => constructor <;>
          simp [handleCreate, hadm, SimpleRESTStorage.Create, hce, setSelfLinkAddName, h, hns]
      | ok ns => constructor <;>
          simp [handleCreate, hadm, SimpleRESTStorage.Create, hce, setSelfLinkAddName, h, hns]
    · cases hns : linker.resolveNamespace obj with
      | error u => constructor <;>
          simp [handleCreate, hadm, SimpleRESTStorage.Create, hce, setSelfLinkAddName, h, hns]
      | ok ns => constructor <;>
          simp [handleCreate, hadm, SimpleRESTStorage.Create, hce, setSelfLinkAddName, h, hns]
    · cases hn : linker.resolveName obj with
      | error u => constructor <;>
          simp [handleCreate, hadm, SimpleRESTStorage.Create, hce, setSelfLinkAddName, hn, h]
      | ok n => constructor <;>
          simp [handleCreate, hadm, SimpleRESTStorage.Create, hce, setSelfLinkAddName, hn, h]
  · intro hadm hue hns
    cases hn : linker.resolveName obj with
    | error u => constructor <;>
        simp [handleUpdate, hn, hns, hadm, SimpleRESTStorage.Update, hue, setSelfLink]
    | ok n => constructor <;>
        simp [handleUpdate, hn, hns, hadm, SimpleRESTStorage.Update, hue, setSelfLink]

/-- C5 witness: clauses of `C5_selflink_calls` instantiated concretely — a
Get whose linker resolves namespace "default" (one canonical call), an
Update whose backend fails (zero calls), a Create whose object has the
zero-value empty name (backend succeeds, zero calls), and an Update whose
linker cannot resolve the namespace (backend succeeds, zero calls). -/
theorem C5_selflink_calls_witness :
    (handleGet (setTestLinker "id" "default" false) "simple" none "id"
        emptyStorage).linkCalls = [itemPath "simple" "id" ++ "?namespace=" ++ "default"] ∧
    (handleUpdate false alwaysAdmit (setTestLinker "id" "default" false) "simple" none "id"
        (.ok ⟨"id", "", "", "x"⟩)
        { emptyStorage with
          errors := fun v => if v = "update" then some ⟨.notFound, "simple not found"⟩ else none }).linkCalls =
      [] ∧
    ((handleCreate false alwaysAdmit accessorLinker "foo" none
        (.ok ⟨"", "", "", "z"⟩) emptyStorage).linkCalls = [] ∧
     (handleCreate false alwaysAdmit accessorLinker "foo" none
        (.ok ⟨"", "", "", "z"⟩) emptyStorage).storage.created = some ⟨"", "", "", "z"⟩) ∧
    ((handleUpdate false alwaysAdmit (setTestLinker "id" "default" true) "simple" none "id"
        (.ok ⟨"id", "x", "", "z"⟩) emptyStorage).linkCalls = [] ∧
     (handleUpdate false alwaysAdmit (setTestLinker "id" "default" true) "simple" none "id"
        (.ok ⟨"id", "x", "", "z"⟩) emptyStorage).storage.updated = some ⟨"id", "x", "", "z"⟩) :=
  ⟨(C5_selflink_calls alwaysAdmit (setTestLinker "id" "default" false) "simple" none "id" "id"
      ⟨"id", "", "", "x"⟩ emptyStorage).1 "default" rfl rfl,
   (C5_selflink_calls alwaysAdmit (setTestLinker "id" "default" false) "simple" none "id" "id"
      ⟨"id", "", "", "x"⟩
      { emptyStorage with
        errors := fun v => if v = "update" then some ⟨.notFound, "simple not found"⟩ else none }).2.2.2.2.2.2.1
      ⟨.notFound, "simple not found"⟩ (by simp),
   (C5_selflink_calls alwaysAdmit accessorLinker "foo" none "id" "id"
      ⟨"", "", "", "z"⟩ emptyStorage).2.2.2.2.2.2.2.1 rfl rfl (Or.inr (Or.inl rfl)),
   (C5_selflink_calls alwaysAdmit (setTestLinker "id" "default" true) "simple" none "id" "id"
      ⟨"id", "x", "", "z"⟩ emptyStorage).2.2.2.2.2.2.2.2 rfl rfl rfl⟩

/-- C6: on a successful List, every item with a non-empty name receives the
canonical self-link built from the item's own identity, items with an empty
name are left untouched (their self-link field stays as it was, empty in
the tests), and the collection itself receives a self-link reflecting the
resolved namespace filter (`TestNonEmptyList`, `TestSelfLinkSkipsEmptyName`,
source lines 534-627). -/
theorem C6_list_selflinks (kind : String) (reqNs : Option String)
    (s : SimpleRESTStorage) (h : s.errors "list" = none) :
    (handleList accessorLinker kind reqNs s).resp.code = 200 ∧
    (handleList accessorLinker kind reqNs s).resp.body =
      .list { selfLink := collectionPath kind ++ "?namespace=" ++ resolveListNamespace reqNs
              items := s.list.map (fun it =>
                if it.name = "" then it
                else { it with selfLink :=
                  collectionPath kind ++ "/" ++ it.name ++ "?namespace=" ++ it.nspace }) } := by
  constructor
  · simp [handleList, SimpleRESTStorage.List, h]
  · simp only [handleList, SimpleRESTStorage.List, h]
    simp only [List.map_map]
    congr 2
    refine congrArg (fun fn => List.map fn s.list) ?_
    funext it
    simp only [Function.comp, setSelfLinkAddName, accessorLinker]
    rcases eq_or_ne it.name "" with hn | hn
    · simp [hn]
    · simp [hn]

/-- A two-item backend for the C6 witness: one named item and one item with
the zero-value identity. -/
def listWitnessStorage : SimpleRESTStorage :=
  { emptyStorage with
    list := [⟨"something", "other", "", "foo"⟩, ⟨"", "other", "", "foo"⟩] }

/-- C6 witness: `C6_list_selflinks` instantiated at `listWitnessStorage`
under the legacy all-namespaces filter — the named item gets its canonical
self-link, the unnamed one keeps an empty self-link, and the collection
link carries the empty namespace filter. -/
theorem C6_list_selflinks_witness :
    listWitnessStorage.errors "list" = none ∧
    (handleList accessorLinker "simple" none listWitnessStorage).resp.body =
      .list { selfLink := "/api/version/simple?namespace="
              items := [⟨"something", "other", "/api/version/simple/something?namespace=other", "foo"⟩,
                        ⟨"", "other", "", "foo"⟩] } :=
  ⟨rfl, ((C6_list_selflinks "simple" none listWitnessStorage rfl).2).trans (by rfl)⟩
